import Mathlib

/-!
Verification of `langchain_factory.py` (gen_ai_orchestrator, LangChain factory
dispatchers). The module is a set of provider-selection dispatchers: each one
inspects the runtime type of a setting object (or an enum field) and returns
the matching adapter factory, raising a provider-specific exception when the
variant is unrecognized. We embed the dispatchers shallowly: Python exceptions
become an `Except` error channel, `isinstance` branching on a closed set of
setting classes becomes a match on an inductive type with one constructor per
concrete setting class plus one constructor for any other subclass of the
base class, and logging becomes an explicit log-state parameter (a list of
emitted messages) threaded through a `_run` version of each dispatcher.
The setting classes themselves live in sibling modules; the dispatchers treat
them opaquely, so each variant carries an abstract payload `α` standing for
all of its fields.
-/

/-- The exception classes raised by the dispatchers, one constructor per
Python exception class imported by the module. -/
inductive GenAIException where
  | GenAIUnknownProviderSettingException
  | GenAIUnknownObservabilityProviderSettingException
  | VectorStoreUnknownException
  | CompressorUnknownException
  deriving DecidableEq, Repr

/-- Modelled from the spec: the LLM setting classes live in
`gen_ai_orchestrator.models.llm`, outside the given source; the spec says the
entities are plain configuration records, one concrete type per supported
provider. One constructor per concrete class the dispatcher tests with
`isinstance`, plus `UnknownLLMSetting` for any other subclass of
`BaseLLMSetting`; the payload `α` stands for the record's fields. -/
inductive BaseLLMSetting (α : Type) where
  | OpenAILLMSetting (data : α)
  | AzureOpenAILLMSetting (data : α)
  | FakeLLMSetting (data : α)
  | UnknownLLMSetting (data : α)
  deriving DecidableEq, Repr

/-- Modelled from the spec: the EM setting classes live outside the given
source; same modelling as for `BaseLLMSetting`. -/
inductive BaseEMSetting (α : Type) where
  | OpenAIEMSetting (data : α)
  | AzureOpenAIEMSetting (data : α)
  | UnknownEMSetting (data : α)
  deriving DecidableEq, Repr

/-- Modelled from the spec: the observability setting classes live outside
the given source; same modelling as for `BaseLLMSetting`. -/
inductive BaseObservabilitySetting (α : Type) where
  | LangfuseObservabilitySetting (data : α)
  | UnknownObservabilitySetting (data : α)
  deriving DecidableEq, Repr

/-- Modelled from the spec: the `VectorStoreProvider` enum lives outside the
given source. The dispatcher only compares against `OPEN_SEARCH`; every other
enum member is modelled by `other n`. -/
inductive VectorStoreProvider where
  | OPEN_SEARCH
  | other (n : Nat)
  deriving DecidableEq, Repr

/-- Modelled from the spec: the `CompressorProvider` enum lives outside the
given source. The dispatcher only compares against `FLASHRANK_RERANK`; every
other enum member is modelled by `other n`. -/
inductive CompressorProvider where
  | FLASHRANK_RERANK
  | other (n : Nat)
  deriving DecidableEq, Repr

/-- Modelled from the spec: `DocumentCompressorParams` lives outside the
given source; the dispatcher reads only its `provider` field, so the other
fields are an abstract payload `α`. -/
structure DocumentCompressorParams (α : Type) where
  provider : CompressorProvider
  extra : α
  deriving DecidableEq, Repr

/-- The LLM adapter factories, one constructor per factory class the
dispatcher can return; each holds the `setting` it was constructed with. -/
inductive LangChainLLMFactory (α : Type) where
  | OpenAILLMFactory (setting : BaseLLMSetting α)
  | AzureOpenAILLMFactory (setting : BaseLLMSetting α)
  | FakeLLMFactory (setting : BaseLLMSetting α)
  deriving DecidableEq, Repr

/-- The EM adapter factories, each holding the `setting` it was constructed
with. -/
inductive LangChainEMFactory (α : Type) where
  | OpenAIEMFactory (setting : BaseEMSetting α)
  | AzureOpenAIEMFactory (setting : BaseEMSetting α)
  deriving DecidableEq, Repr

/-- The vector store adapter factories; `OpenSearchFactory` holds the
`embedding_function` (abstract type `β`, the `Embeddings` object) and
`index_name` it was constructed with. -/
inductive LangChainVectorStoreFactory (β : Type) where
  | OpenSearchFactory (embedding_function : β) (index_name : String)
  deriving DecidableEq, Repr

/-- The callback handler factories; `LangfuseCallbackHandlerFactory` holds
the `setting` it was constructed with. -/
inductive LangChainCallbackHandlerFactory (α : Type) where
  | LangfuseCallbackHandlerFactory (setting : BaseObservabilitySetting α)
  deriving DecidableEq, Repr

/-- The compressor factories; `FlashrankRerankCompressorFactory` holds the
`param` it was constructed with. -/
inductive LangChainCompressorFactory (α : Type) where
  | FlashrankRerankCompressorFactory (param : DocumentCompressorParams α)
  deriving DecidableEq, Repr

/-- Modelled from the spec: `ObservabilityTrace` is an enum of trace names in
a sibling module; `create_observability_callback_handler` only reads its
`.value`, modelled as a string field. -/
structure ObservabilityTrace where
  value : String
  deriving DecidableEq, Repr

/-- Modelled from the spec: the `LangfuseCallbackHandler` class belongs to
the wrapped third-party library; it is determined by the setting it was
built from and the trace name it was given. -/
structure LangfuseCallbackHandler (α : Type) where
  setting : BaseObservabilitySetting α
  trace_name : String
  deriving DecidableEq, Repr

/-- The setting a returned LLM factory was constructed with. -/
def LangChainLLMFactory.setting : LangChainLLMFactory α → BaseLLMSetting α
  | .OpenAILLMFactory s => s
  | .AzureOpenAILLMFactory s => s
  | .FakeLLMFactory s => s

/-- The setting a returned EM factory was constructed with. -/
def LangChainEMFactory.setting : LangChainEMFactory α → BaseEMSetting α
  | .OpenAIEMFactory s => s
  | .AzureOpenAIEMFactory s => s

/-- The setting a returned callback handler factory was constructed with. -/
def LangChainCallbackHandlerFactory.setting :
    LangChainCallbackHandlerFactory α → BaseObservabilitySetting α
  | .LangfuseCallbackHandlerFactory s => s

/-- Modelled from the spec: `get_callback_handler` of the Langfuse factory
lives in a sibling module; it builds the Langfuse callback handler from the
factory's setting and the given trace name. -/
def LangChainCallbackHandlerFactory.get_callback_handler :
    LangChainCallbackHandlerFactory α → String → LangfuseCallbackHandler α
  | .LangfuseCallbackHandlerFactory s, name => ⟨s, name⟩

/-- `get_llm_factory`, with the log state made explicit: the list of messages
emitted so far comes in, and the extended list comes out alongside the
result. Mirrors the source line by line: `logger.info` first, then the
`isinstance` chain, each recognized branch logging a debug message and
returning the factory built from the given setting, the final `else` raising
`GenAIUnknownProviderSettingException`. -/
def get_llm_factory_run (setting : BaseLLMSetting α) (log0 : List String) :
    Except GenAIException (LangChainLLMFactory α) × List String :=
  let log := log0 ++ ["Get LLM Factory for the given setting"]
  match setting with
  | .OpenAILLMSetting _ =>
      (Except.ok (.OpenAILLMFactory setting), log ++ ["LLM Factory - OpenAILLMFactory"])
  | .AzureOpenAILLMSetting _ =>
      (Except.ok (.AzureOpenAILLMFactory setting), log ++ ["LLM Factory - AzureOpenAILLMFactory"])
  | .FakeLLMSetting _ =>
      (Except.ok (.FakeLLMFactory setting), log ++ ["LLM Factory - FakeLLMFactory"])
  | .UnknownLLMSetting _ =>
      (Except.error GenAIException.GenAIUnknownProviderSettingException, log)

/-- `get_llm_factory`: result of a run from the empty log. -/
def get_llm_factory (setting : BaseLLMSetting α) :
    Except GenAIException (LangChainLLMFactory α) :=
  (get_llm_factory_run setting []).1

/-- `get_em_factory`, with the log state made explicit. -/
def get_em_factory_run (setting : BaseEMSetting α) (log0 : List String) :
    Except GenAIException (LangChainEMFactory α) × List String :=
  let log := log0 ++ ["Get Embedding Model Factory for the given setting"]
  match setting with
  | .OpenAIEMSetting _ =>
      (Except.ok (.OpenAIEMFactory setting), log ++ ["EM Factory - OpenAIEMFactory"])
  | .AzureOpenAIEMSetting _ =>
      (Except.ok (.AzureOpenAIEMFactory setting), log ++ ["EM Factory - AzureOpenAIEMFactory"])
  | .UnknownEMSetting _ =>
      (Except.error GenAIException.GenAIUnknownProviderSettingException, log)

/-- `get_em_factory`: result of a run from the empty log. -/
def get_em_factory (setting : BaseEMSetting α) :
    Except GenAIException (LangChainEMFactory α) :=
  (get_em_factory_run setting []).1

/-- `get_vector_store_factory`, with the log state made explicit. The source
branches on `VectorStoreProvider.OPEN_SEARCH == vector_store_provider` and
builds `OpenSearchFactory` from the given embedding function and index name,
else raises `VectorStoreUnknownException`. -/
def get_vector_store_factory_run (vector_store_provider : VectorStoreProvider)
    (embedding_function : β) (index_name : String) (log0 : List String) :
    Except GenAIException (LangChainVectorStoreFactory β) × List String :=
  let log := log0 ++ ["Get Vector Store Factory for the given provider"]
  match vector_store_provider with
  | .OPEN_SEARCH =>
      (Except.ok (.OpenSearchFactory embedding_function index_name),
        log ++ ["Vector Store Factory - OpenSearchFactory"])
  | .other _ =>
      (Except.error GenAIException.VectorStoreUnknownException, log)

/-- `get_vector_store_factory`: result of a run from the empty log. -/
def get_vector_store_factory (vector_store_provider : VectorStoreProvider)
    (embedding_function : β) (index_name : String) :
    Except GenAIException (LangChainVectorStoreFactory β) :=
  (get_vector_store_factory_run vector_store_provider embedding_function index_name []).1

/-- `get_callback_handler_factory`, with the log state made explicit. -/
def get_callback_handler_factory_run (setting : BaseObservabilitySetting α)
    (log0 : List String) :
    Except GenAIException (LangChainCallbackHandlerFactory α) × List String :=
  let log := log0 ++ ["Get Observability Factory for the given setting"]
  match setting with
  | .LangfuseObservabilitySetting _ =>
      (Except.ok (.LangfuseCallbackHandlerFactory setting),
        log ++ ["Observability Factory - LangfuseCallbackHandlerFactory"])
  | .UnknownObservabilitySetting _ =>
      (Except.error GenAIException.GenAIUnknownObservabilityProviderSettingException, log)

/-- `get_callback_handler_factory`: result of a run from the empty log. -/
def get_callback_handler_factory (setting : BaseObservabilitySetting α) :
    Except GenAIException (LangChainCallbackHandlerFactory α) :=
  (get_callback_handler_factory_run setting []).1

/-- `get_compressor_factory`, with the log state made explicit. The source
branches on `param.provider == CompressorProvider.FLASHRANK_RERANK` (no debug
log in this dispatcher) and builds `FlashrankRerankCompressorFactory` from
the given param, else raises `CompressorUnknownException`. -/
def get_compressor_factory_run (param : DocumentCompressorParams α)
    (log0 : List String) :
    Except GenAIException (LangChainCompressorFactory α) × List String :=
  let log := log0 ++ ["Get Langchain Factory for the given provider"]
  if param.provider = CompressorProvider.FLASHRANK_RERANK then
    (Except.ok (.FlashrankRerankCompressorFactory param), log)
  else
    (Except.error GenAIException.CompressorUnknownException, log)

/-- `get_compressor_factory`: result of a run from the empty log. -/
def get_compressor_factory (param : DocumentCompressorParams α) :
    Except GenAIException (LangChainCompressorFactory α) :=
  (get_compressor_factory_run param []).1

/-- `create_observability_callback_handler`: when the optional observability
setting is `None` the function returns `None`; otherwise it calls
`get_callback_handler_factory` on the setting (whose exception, if any,
propagates) and asks the factory for a callback handler built with
`trace_name.value`. -/
def create_observability_callback_handler
    (observability_setting : Option (BaseObservabilitySetting α))
    (trace_name : ObservabilityTrace) :
    Except GenAIException (Option (LangfuseCallbackHandler α)) :=
  match observability_setting with
  | some s =>
      match get_callback_handler_factory s with
      | Except.ok f => Except.ok (some (f.get_callback_handler trace_name.value))
      | Except.error e => Except.error e
  | none => Except.ok none

/-- C1: for every `BaseLLMSetting` given to `get_llm_factory`, an
`OpenAILLMSetting` returns an `OpenAILLMFactory`, an `AzureOpenAILLMSetting`
returns an `AzureOpenAILLMFactory`, a `FakeLLMSetting` returns a
`FakeLLMFactory` (each built from the given setting, exactly one adapter type
per variant), and any other setting raises
`GenAIUnknownProviderSettingException`. -/
theorem get_llm_factory_dispatch (α : Type) :
    (∀ (d : α), get_llm_factory (BaseLLMSetting.OpenAILLMSetting d)
      = Except.ok (LangChainLLMFactory.OpenAILLMFactory (BaseLLMSetting.OpenAILLMSetting d))) ∧
    (∀ (d : α), get_llm_factory (BaseLLMSetting.AzureOpenAILLMSetting d)
      = Except.ok (LangChainLLMFactory.AzureOpenAILLMFactory (BaseLLMSetting.AzureOpenAILLMSetting d))) ∧
    (∀ (d : α), get_llm_factory (BaseLLMSetting.FakeLLMSetting d)
      = Except.ok (LangChainLLMFactory.FakeLLMFactory (BaseLLMSetting.FakeLLMSetting d))) ∧
    (∀ (d : α), get_llm_factory (BaseLLMSetting.UnknownLLMSetting d)
      = Except.error GenAIException.GenAIUnknownProviderSettingException) :=
  ⟨fun _ => rfl, fun _ => rfl, fun _ => rfl, fun _ => rfl⟩

/-- C2 counterexample: the unknown-variant exceptions are not pairwise
distinct. On unrecognized input, `get_llm_factory` and `get_em_factory` both
raise the very same exception type, `GenAIUnknownProviderSettingException`,
shown here at concrete inputs. -/
theorem llm_and_em_share_unknown_exception :
    get_llm_factory (BaseLLMSetting.UnknownLLMSetting (0 : Nat))
      = Except.error GenAIException.GenAIUnknownProviderSettingException ∧
    get_em_factory (BaseEMSetting.UnknownEMSetting (0 : Nat))
      = Except.error GenAIException.GenAIUnknownProviderSettingException :=
  ⟨rfl, rfl⟩

/-- C2 amended: on unrecognized input, `get_vector_store_factory`,
`get_callback_handler_factory` and `get_compressor_factory` each raise an
exception type distinct from each other's and from
`GenAIUnknownProviderSettingException`, but `get_llm_factory` and
`get_em_factory` both raise the same `GenAIUnknownProviderSettingException`. -/
theorem unknown_exception_types (α β : Type) :
    (∀ (d : α), get_llm_factory (BaseLLMSetting.UnknownLLMSetting d)
      = Except.error GenAIException.GenAIUnknownProviderSettingException) ∧
    (∀ (d : α), get_em_factory (BaseEMSetting.UnknownEMSetting d)
      = Except.error GenAIException.GenAIUnknownProviderSettingException) ∧
    (∀ (n : Nat) (ef : β) (idx : String),
      get_vector_store_factory (VectorStoreProvider.other n) ef idx
        = Except.error GenAIException.VectorStoreUnknownException) ∧
    (∀ (d : α), get_callback_handler_factory (BaseObservabilitySetting.UnknownObservabilitySetting d)
      = Except.error GenAIException.GenAIUnknownObservabilityProviderSettingException) ∧
    (∀ (n : Nat) (d : α),
      get_compressor_factory ⟨CompressorProvider.other n, d⟩
        = Except.error GenAIException.CompressorUnknownException) ∧
    List.Pairwise Ne
      [GenAIException.GenAIUnknownProviderSettingException,
       GenAIException.VectorStoreUnknownException,
       GenAIException.GenAIUnknownObservabilityProviderSettingException,
       GenAIException.CompressorUnknownException] :=
  ⟨fun _ => rfl, fun _ => rfl, fun _ _ _ => rfl, fun _ => rfl, fun _ _ => rfl, by decide⟩

/-- C3: for every `BaseEMSetting` given to `get_em_factory`, an
`OpenAIEMSetting` returns an `OpenAIEMFactory`, an `AzureOpenAIEMSetting`
returns an `AzureOpenAIEMFactory` (each built from the given setting), and
any other setting raises `GenAIUnknownProviderSettingException`. -/
theorem get_em_factory_dispatch (α : Type) :
    (∀ (d : α), get_em_factory (BaseEMSetting.OpenAIEMSetting d)
      = Except.ok (LangChainEMFactory.OpenAIEMFactory (BaseEMSetting.OpenAIEMSetting d))) ∧
    (∀ (d : α), get_em_factory (BaseEMSetting.AzureOpenAIEMSetting d)
      = Except.ok (LangChainEMFactory.AzureOpenAIEMFactory (BaseEMSetting.AzureOpenAIEMSetting d))) ∧
    (∀ (d : α), get_em_factory (BaseEMSetting.UnknownEMSetting d)
      = Except.error GenAIException.GenAIUnknownProviderSettingException) :=
  ⟨fun _ => rfl, fun _ => rfl, fun _ => rfl⟩

/-- C4: `get_vector_store_factory` on `OPEN_SEARCH` returns an
`OpenSearchFactory` built with exactly the given embedding function and index
name; on every other provider value it raises `VectorStoreUnknownException`. -/
theorem get_vector_store_factory_dispatch (β : Type) :
    (∀ (ef : β) (idx : String),
      get_vector_store_factory VectorStoreProvider.OPEN_SEARCH ef idx
        = Except.ok (LangChainVectorStoreFactory.OpenSearchFactory ef idx)) ∧
    (∀ (p : VectorStoreProvider) (ef : β) (idx : String),
      p ≠ VectorStoreProvider.OPEN_SEARCH →
      get_vector_store_factory p ef idx
        = Except.error GenAIException.VectorStoreUnknownException) := by
  refine ⟨fun _ _ => rfl, fun p ef idx hp => ?_⟩
  cases p with
  | OPEN_SEARCH => exact absurd rfl hp
  | other n => rfl

/-- C4 witness: the dispatch theorem applied at concrete inputs, the
non-`OPEN_SEARCH` hypothesis discharged at `other 7`. -/
theorem get_vector_store_factory_dispatch_witness :
    get_vector_store_factory (VectorStoreProvider.other 7) (0 : Nat) ""
      = Except.error GenAIException.VectorStoreUnknownException :=
  (get_vector_store_factory_dispatch Nat).2 (VectorStoreProvider.other 7) 0 "" (by decide)

/-- C5: for every `BaseObservabilitySetting` given to
`get_callback_handler_factory`, a `LangfuseObservabilitySetting` returns a
`LangfuseCallbackHandlerFactory` built from the given setting, and any other
setting raises `GenAIUnknownObservabilityProviderSettingException`. -/
theorem get_callback_handler_factory_dispatch (α : Type) :
    (∀ (d : α), get_callback_handler_factory (BaseObservabilitySetting.LangfuseObservabilitySetting d)
      = Except.ok (LangChainCallbackHandlerFactory.LangfuseCallbackHandlerFactory
          (BaseObservabilitySetting.LangfuseObservabilitySetting d))) ∧
    (∀ (d : α), get_callback_handler_factory (BaseObservabilitySetting.UnknownObservabilitySetting d)
      = Except.error GenAIException.GenAIUnknownObservabilityProviderSettingException) :=
  ⟨fun _ => rfl, fun _ => rfl⟩

/-- C6: `get_compressor_factory` on a param whose provider is
`FLASHRANK_RERANK` returns a `FlashrankRerankCompressorFactory` built with
exactly the given param; on every other provider value it raises
`CompressorUnknownException`. -/
theorem get_compressor_factory_dispatch (α : Type) :
    (∀ (p : DocumentCompressorParams α),
      p.provider = CompressorProvider.FLASHRANK_RERANK →
      get_compressor_factory p
        = Except.ok (LangChainCompressorFactory.FlashrankRerankCompressorFactory p)) ∧
    (∀ (p : DocumentCompressorParams α),
      p.provider ≠ CompressorProvider.FLASHRANK_RERANK →
      get_compressor_factory p
        = Except.error GenAIException.CompressorUnknownException) := by
  constructor
  · intro p hp
    simp [get_compressor_factory, get_compressor_factory_run, hp]
  · intro p hp
    simp [get_compressor_factory, get_compressor_factory_run, hp]

/-- C6 witness: the dispatch theorem applied at concrete params, each
provider hypothesis discharged there. -/
theorem get_compressor_factory_dispatch_witness :
    get_compressor_factory ⟨CompressorProvider.FLASHRANK_RERANK, (3 : Nat)⟩
      = Except.ok (LangChainCompressorFactory.FlashrankRerankCompressorFactory
          ⟨CompressorProvider.FLASHRANK_RERANK, 3⟩) ∧
    get_compressor_factory ⟨CompressorProvider.other 2, (3 : Nat)⟩
      = Except.error GenAIException.CompressorUnknownException :=
  ⟨(get_compressor_factory_dispatch Nat).1 _ rfl,
   (get_compressor_factory_dispatch Nat).2 ⟨CompressorProvider.other 2, 3⟩ (by decide)⟩

/-- C7: every dispatcher is deterministic and stateless apart from logging:
for every input, the result of a run does not depend on the incoming log
state (so two runs on equal inputs produce the same factory or the same
exception), and the only state change is that the run's own messages are
appended to the log. -/
theorem dispatchers_deterministic_stateless (α β : Type) :
    (∀ (s : BaseLLMSetting α) (l1 l2 : List String),
      (get_llm_factory_run s l1).1 = (get_llm_factory_run s l2).1 ∧
      (get_llm_factory_run s l1).2 = l1 ++ (get_llm_factory_run s []).2) ∧
    (∀ (s : BaseEMSetting α) (l1 l2 : List String),
      (get_em_factory_run s l1).1 = (get_em_factory_run s l2).1 ∧
      (get_em_factory_run s l1).2 = l1 ++ (get_em_factory_run s []).2) ∧
    (∀ (p : VectorStoreProvider) (ef : β) (idx : String) (l1 l2 : List String),
      (get_vector_store_factory_run p ef idx l1).1 = (get_vector_store_factory_run p ef idx l2).1 ∧
      (get_vector_store_factory_run p ef idx l1).2 = l1 ++ (get_vector_store_factory_run p ef idx []).2) ∧
    (∀ (s : BaseObservabilitySetting α) (l1 l2 : List String),
      (get_callback_handler_factory_run s l1).1 = (get_callback_handler_factory_run s l2).1 ∧
      (get_callback_handler_factory_run s l1).2 = l1 ++ (get_callback_handler_factory_run s []).2) ∧
    (∀ (p : DocumentCompressorParams α) (l1 l2 : List String),
      (get_compressor_factory_run p l1).1 = (get_compressor_factory_run p l2).1 ∧
      (get_compressor_factory_run p l1).2 = l1 ++ (get_compressor_factory_run p []).2) := by
  refine ⟨fun s l1 l2 => ?_, fun s l1 l2 => ?_, fun p ef idx l1 l2 => ?_,
    fun s l1 l2 => ?_, fun p l1 l2 => ?_⟩
  · cases s <;> simp [get_llm_factory_run]
  · cases s <;> simp [get_em_factory_run]
  · cases p <;> simp [get_vector_store_factory_run]
  · cases s <;> simp [get_callback_handler_factory_run]
  · by_cases hp : p.provider = CompressorProvider.FLASHRANK_RERANK <;>
      simp [get_compressor_factory_run, hp]

/-- C8: `create_observability_callback_handler` returns `None` and raises no
exception whenever its observability setting argument is `None`, for every
trace name; when the setting is not `None` it hands the setting to the
callback-handler factory and returns the handler that factory builds (or
propagates the factory's exception). -/
theorem create_observability_callback_handler_spec (α : Type) :
    (∀ (t : ObservabilityTrace),
      create_observability_callback_handler (α := α) none t = Except.ok none) ∧
    (∀ (s : BaseObservabilitySetting α) (t : ObservabilityTrace),
      create_observability_callback_handler (some s) t
        = match get_callback_handler_factory s with
          | Except.ok f => Except.ok (some (f.get_callback_handler t.value))
          | Except.error e => Except.error e) :=
  ⟨fun _ => rfl, fun _ _ => rfl⟩

/-- C9: the setting-based dispatchers pass their input through unchanged: any
factory returned by `get_llm_factory`, `get_em_factory` or
`get_callback_handler_factory` holds exactly the setting object it was given
as its `setting` field. -/
theorem dispatchers_pass_setting_through (α : Type) :
    (∀ (s : BaseLLMSetting α) (f : LangChainLLMFactory α),
      get_llm_factory s = Except.ok f → f.setting = s) ∧
    (∀ (s : BaseEMSetting α) (f : LangChainEMFactory α),
      get_em_factory s = Except.ok f → f.setting = s) ∧
    (∀ (s : BaseObservabilitySetting α) (f : LangChainCallbackHandlerFactory α),
      get_callback_handler_factory s = Except.ok f → f.setting = s) := by
  refine ⟨fun s f h => ?_, fun s f h => ?_, fun s f h => ?_⟩
  · cases s <;> simp [get_llm_factory, get_llm_factory_run] at h <;>
      subst h <;> rfl
  · cases s <;> simp [get_em_factory, get_em_factory_run] at h <;>
      subst h <;> rfl
  · cases s <;> simp [get_callback_handler_factory, get_callback_handler_factory_run] at h
    subst h
    rfl

/-- C9 witness: the pass-through theorem applied at concrete inputs, the
success hypothesis of each conjunct discharged by evaluation. -/
theorem dispatchers_pass_setting_through_witness :
    LangChainLLMFactory.setting
      (LangChainLLMFactory.OpenAILLMFactory (BaseLLMSetting.OpenAILLMSetting (5 : Nat)))
      = BaseLLMSetting.OpenAILLMSetting 5 ∧
    LangChainEMFactory.setting
      (LangChainEMFactory.AzureOpenAIEMFactory (BaseEMSetting.AzureOpenAIEMSetting (6 : Nat)))
      = BaseEMSetting.AzureOpenAIEMSetting 6 ∧
    LangChainCallbackHandlerFactory.setting
      (LangChainCallbackHandlerFactory.LangfuseCallbackHandlerFactory
        (BaseObservabilitySetting.LangfuseObservabilitySetting (7 : Nat)))
      = BaseObservabilitySetting.LangfuseObservabilitySetting 7 :=
  ⟨(dispatchers_pass_setting_through Nat).1 _ _ rfl,
   (dispatchers_pass_setting_through Nat).2.1 _ _ rfl,
   (dispatchers_pass_setting_through Nat).2.2 _ _ rfl⟩

/-- C10: the branch `get_compressor_factory` takes depends only on the
`provider` field of its parameter: for any two params with equal providers,
either both calls return a `FlashrankRerankCompressorFactory` (each built
from its own param) or both raise `CompressorUnknownException`, regardless of
every other field. -/
theorem get_compressor_factory_provider_only (α : Type)
    (p q : DocumentCompressorParams α) (hpq : p.provider = q.provider) :
    (get_compressor_factory p
        = Except.ok (LangChainCompressorFactory.FlashrankRerankCompressorFactory p) ∧
      get_compressor_factory q
        = Except.ok (LangChainCompressorFactory.FlashrankRerankCompressorFactory q)) ∨
    (get_compressor_factory p
        = Except.error GenAIException.CompressorUnknownException ∧
      get_compressor_factory q
        = Except.error GenAIException.CompressorUnknownException) := by
  by_cases hp : p.provider = CompressorProvider.FLASHRANK_RERANK
  · exact Or.inl ⟨by simp [get_compressor_factory, get_compressor_factory_run, hp],
      by simp [get_compressor_factory, get_compressor_factory_run, hpq ▸ hp]⟩
  · exact Or.inr ⟨by simp [get_compressor_factory, get_compressor_factory_run, hp],
      by simp [get_compressor_factory, get_compressor_factory_run, hpq ▸ hp]⟩

/-- C10 witness: the provider-only theorem applied to two concrete params
sharing a provider but differing in every other field. -/
theorem get_compressor_factory_provider_only_witness :
    (get_compressor_factory ⟨CompressorProvider.FLASHRANK_RERANK, (0 : Nat)⟩
        = Except.ok (LangChainCompressorFactory.FlashrankRerankCompressorFactory
            ⟨CompressorProvider.FLASHRANK_RERANK, 0⟩) ∧
      get_compressor_factory ⟨CompressorProvider.FLASHRANK_RERANK, (1 : Nat)⟩
        = Except.ok (LangChainCompressorFactory.FlashrankRerankCompressorFactory
            ⟨CompressorProvider.FLASHRANK_RERANK, 1⟩)) ∨
    (get_compressor_factory ⟨CompressorProvider.FLASHRANK_RERANK, (0 : Nat)⟩
        = Except.error GenAIException.CompressorUnknownException ∧
      get_compressor_factory ⟨CompressorProvider.FLASHRANK_RERANK, (1 : Nat)⟩
        = Except.error GenAIException.CompressorUnknownException) :=
  get_compressor_factory_provider_only Nat
    ⟨CompressorProvider.FLASHRANK_RERANK, 0⟩
    ⟨CompressorProvider.FLASHRANK_RERANK, 1⟩ rfl
